import Mathlib

/-!
Verification of the ThreadActorProxy state machine

A shallow embedding of `src/firefox/actorProxy/thread.ts` from
vscode-firefox-debug: the client-side proxy for a thread-like actor in the
Firefox remote debugging protocol.

Modelling choices:
* A JS `Promise` field that doubles as in-flight marker and cached result is
  modelled as `Option Promise`, where `Promise.pending id` is a fresh promise
  created by an operation (its executor's `resolve`/`reject` pair is the
  pending-request handle with the same `id`) and `Promise.resolved` is
  `Promise.resolve(undefined)`.
* Side effects (outbound wire requests via `connection.sendRequest`, settling
  a handle, emitting an event to listeners, `log.warn`) are collected in an
  ordered `List Effect`.  `log.debug` calls are pure tracing and are not
  modelled.
* `receiveResponse` can throw a `TypeError` in JS when it dereferences a
  missing sub-object (`why.type`, `why.frameFinished.return`, `source.actor`);
  this is modelled by returning `none`.
* Source descriptors, frame descriptors and grips are opaque payloads,
  modelled as `Nat` (resp. lists thereof); a JS object field that may be
  absent is an `Option`.
-/

namespace ThreadActor

/-- The state of a JS promise slot: absent (`null`/`undefined` field),
a pending promise created by an operation (identified by the id of its
resolve/reject handle), or an already-settled `Promise.resolve(undefined)`. -/
inductive Promise where
  | pending (id : Nat)
  | resolved
deriving DecidableEq

/-- The `ExceptionBreakpoints` enum from thread.ts. -/
inductive ExceptionBreakpoints where
  | All
  | Uncaught
  | None
deriving DecidableEq

/-- Values with which a handle can be settled. -/
inductive RVal where
  | unit
  | sources (v : List Nat)
  | frames (v : List Nat)
  | grip (v : Nat)
deriving DecidableEq

/-- An outbound wire request, as passed to `connection.sendRequest`
(the `to: this.name` field is common to all and omitted). -/
inductive Request where
  | attach
  | resume (resumeLimit : Option String) (pauseOnExceptions : Option Bool)
      (ignoreCaughtExceptions : Option Bool)
  | interrupt
  | detach
  | sources
  | frames (start : Nat) (count : Nat)
  | clientEvaluate (expression : String) (frame : String)
  | releaseMany (actors : List String)
deriving DecidableEq

/-- An observable side effect of an operation or of dispatching one inbound
message, in the order it happens. -/
inductive Effect where
  | send (req : Request)
  | resolve (handle : Nat) (v : RVal)
  | reject (handle : Nat) (reason : String)
  | emitPaused (reason : String)
  | emitExited
  | emitWrongState
  | emitNewSource (sourceActor : Nat)
  | getOrCreateSourceActor (sourceActor : Nat)
  | warn (msg : String)
deriving DecidableEq

/-- The mutable fields of a `ThreadActorProxy`.  Lifecycle promise slots and
pending-request slots hold at most one entry; data-fetch queues are FIFO
lists of handle ids.  `nextId` supplies fresh handle ids. -/
structure ThreadState where
  attachPromise : Option Promise
  resumePromise : Option Promise
  interruptPromise : Option Promise
  detachPromise : Option Promise
  pendingAttachRequest : Option Nat
  pendingResumeRequest : Option Nat
  pendingInterruptRequest : Option Nat
  pendingDetachRequest : Option Nat
  pendingSourcesRequests : List Nat
  pendingStackFramesRequests : List Nat
  pendingEvaluateRequests : List Nat
  pendingReleaseRequests : List Nat
  nextId : Nat
deriving DecidableEq

/-- The state of a freshly constructed `ThreadActorProxy`. -/
def initialState : ThreadState :=
  { attachPromise := none
    resumePromise := none
    interruptPromise := none
    detachPromise := none
    pendingAttachRequest := none
    pendingResumeRequest := none
    pendingInterruptRequest := none
    pendingDetachRequest := none
    pendingSourcesRequests := []
    pendingStackFramesRequests := []
    pendingEvaluateRequests := []
    pendingReleaseRequests := []
    nextId := 0 }

/-- Modelled from the spec: the class `PendingRequests` lives in
`src/firefox/actorProxy/pendingRequests.ts`, which is not among the sources;
per spec section 4.1, `enqueue(kind, handle)` appends a handle to that
kind's queue. -/
def PendingRequests.enqueue (q : List Nat) (h : Nat) : List Nat :=
  q ++ [h]

/-- Modelled from the spec: `PendingRequests.resolveOne(value)` pops the
oldest handle and settles it with the value; on an empty queue it logs a
warning and does not crash (spec section 4.1). -/
def PendingRequests.resolveOne (q : List Nat) (v : RVal) : List Nat × List Effect :=
  match q with
  | [] => ([], [Effect.warn "Received a reply without a corresponding pending request"])
  | h :: t => (t, [Effect.resolve h v])

/-- Modelled from the spec: `PendingRequests.rejectAll(reason)` settles every
queued handle as failed with the reason and empties the queue
(spec section 4.1). -/
def PendingRequests.rejectAll (q : List Nat) (reason : String) : List Nat × List Effect :=
  ([], q.map (fun h => Effect.reject h reason))

/-- Method `ThreadActorProxy.attach`: if no attach promise is cached, create one,
send an `attach` request and clear the cached detach promise; otherwise warn
and return the cached promise. -/
def attach (s : ThreadState) : ThreadState × List Effect × Promise :=
  match s.attachPromise with
  | none =>
    ({ s with
        attachPromise := some (Promise.pending s.nextId)
        pendingAttachRequest := some s.nextId
        detachPromise := none
        nextId := s.nextId + 1 },
      [Effect.send Request.attach], Promise.pending s.nextId)
  | some p =>
    (s, [Effect.warn "Attaching this thread has already been requested!"], p)

/-- The `switch (exceptionBreakpoints)` statement inside
`ThreadActorProxy.resume`, computing the pair
`(pauseOnExceptions, ignoreCaughtExceptions)`; both start out `undefined`. -/
def exceptionFlags : ExceptionBreakpoints → Option Bool × Option Bool
  | ExceptionBreakpoints.All => (some true, none)
  | ExceptionBreakpoints.Uncaught => (some true, some true)
  | ExceptionBreakpoints.None => (none, none)

/-- Method `ThreadActorProxy.resume`: if no resume promise is cached, create one,
send a `resume` request carrying the resume limit (the `{ type: t }`
descriptor is identified with its `type` string, `undefined` with `none`)
and the two exception flags, and clear the cached interrupt promise;
otherwise return the cached promise. -/
def resume (s : ThreadState) (exceptionBreakpoints : ExceptionBreakpoints)
    (resumeLimitType : Option String) : ThreadState × List Effect × Promise :=
  match s.resumePromise with
  | none =>
    ({ s with
        resumePromise := some (Promise.pending s.nextId)
        pendingResumeRequest := some s.nextId
        interruptPromise := none
        nextId := s.nextId + 1 },
      [Effect.send (Request.resume resumeLimitType
        (exceptionFlags exceptionBreakpoints).1
        (exceptionFlags exceptionBreakpoints).2)],
      Promise.pending s.nextId)
  | some p => (s, [], p)

/-- Method `ThreadActorProxy.interrupt`: if no interrupt promise is cached, create
one, send an `interrupt` request and clear the cached resume promise;
otherwise return the cached promise. -/
def interrupt (s : ThreadState) : ThreadState × List Effect × Promise :=
  match s.interruptPromise with
  | none =>
    ({ s with
        interruptPromise := some (Promise.pending s.nextId)
        pendingInterruptRequest := some s.nextId
        resumePromise := none
        nextId := s.nextId + 1 },
      [Effect.send Request.interrupt], Promise.pending s.nextId)
  | some p => (s, [], p)

/-- Method `ThreadActorProxy.detach`: if no detach promise is cached, create one,
send a `detach` request and clear the cached attach promise; otherwise warn
and return the cached promise. -/
def detach (s : ThreadState) : ThreadState × List Effect × Promise :=
  match s.detachPromise with
  | none =>
    ({ s with
        detachPromise := some (Promise.pending s.nextId)
        pendingDetachRequest := some s.nextId
        attachPromise := none
        nextId := s.nextId + 1 },
      [Effect.send Request.detach], Promise.pending s.nextId)
  | some p =>
    (s, [Effect.warn "Detaching this thread has already been requested!"], p)

/-- Method `ThreadActorProxy.fetchSources`: enqueue a fresh handle on the sources
queue and send a `sources` request. -/
def fetchSources (s : ThreadState) : ThreadState × List Effect × Promise :=
  ({ s with
      pendingSourcesRequests := PendingRequests.enqueue s.pendingSourcesRequests s.nextId
      nextId := s.nextId + 1 },
    [Effect.send Request.sources], Promise.pending s.nextId)

/-- Method `ThreadActorProxy.fetchStackFrames(levels)`: enqueue a fresh handle on
the stack-frames queue and send a `frames` request with `start: 0` and
`count: levels`. -/
def fetchStackFrames (s : ThreadState) (levels : Nat) : ThreadState × List Effect × Promise :=
  ({ s with
      pendingStackFramesRequests :=
        PendingRequests.enqueue s.pendingStackFramesRequests s.nextId
      nextId := s.nextId + 1 },
    [Effect.send (Request.frames 0 levels)], Promise.pending s.nextId)

/-- The backslash character. -/
def backslashChar : Char := Char.ofNat 92

/-- The double-quote character. -/
def quoteChar : Char := Char.ofNat 34

/-- The single-quote character. -/
def singleQuoteChar : Char := Char.ofNat 39

/-- The opening curly brace character. -/
def lbraceChar : Char := Char.ofNat 123

/-- The closing curly brace character. -/
def rbraceChar : Char := Char.ofNat 125

/-- Semantics of JS `str.replace(/c/g, r)` for a single character `c`: replace every
occurrence of `c` in `str` by the string `r`. -/
def replaceAllChar (s : String) (c : Char) (r : String) : String :=
  String.mk (s.data.foldr (fun ch acc => if ch = c then r.data ++ acc else ch :: acc) [])

/-- Computes `expr.replace(/\\/g, backslash backslash).replace(/quote/g, backslash quote)`
from `ThreadActorProxy.evaluate`. -/
def escapedExpression (expr : String) : String :=
  replaceAllChar (replaceAllChar expr backslashChar (String.mk [backslashChar, backslashChar]))
    quoteChar (String.mk [backslashChar, quoteChar])

/-- The literal prefix of the `tryExpression` template string in
`ThreadActorProxy.evaluate`: `eval("try` followed by an opening brace. -/
def tryExprOpen : String :=
  "eval(" ++ String.mk [quoteChar] ++ "try" ++ String.mk [lbraceChar]

/-- The literal suffix of the `tryExpression` template string in
`ThreadActorProxy.evaluate`: a closing brace, then `catch(e)`, then a braced
body stringifying the error as name, colon, message, then the closing quote
and parenthesis. -/
def tryExprClose : String :=
  String.mk [rbraceChar] ++ "catch(e)" ++ String.mk [lbraceChar] ++ "e.name+"
    ++ String.mk [singleQuoteChar] ++ ":" ++ String.mk [singleQuoteChar]
    ++ "+e.message" ++ String.mk [rbraceChar] ++ String.mk [quoteChar] ++ ")"

/-- Method `ThreadActorProxy.evaluate(expr, frameActorName)`: enqueue a fresh handle
on the evaluate queue and send a `clientEvaluate` request whose expression is
the escaped input wrapped in the remote try/catch template. -/
def evaluate (s : ThreadState) (expr : String) (frameActorName : String) :
    ThreadState × List Effect × Promise :=
  ({ s with
      pendingEvaluateRequests := PendingRequests.enqueue s.pendingEvaluateRequests s.nextId
      nextId := s.nextId + 1 },
    [Effect.send (Request.clientEvaluate
      (tryExprOpen ++ escapedExpression expr ++ tryExprClose) frameActorName)],
    Promise.pending s.nextId)

/-- Method `ThreadActorProxy.releaseMany(objectGripActorNames)`: enqueue a fresh
handle on the release queue and send a `releaseMany` request. -/
def releaseMany (s : ThreadState) (objectGripActorNames : List String) :
    ThreadState × List Effect × Promise :=
  ({ s with
      pendingReleaseRequests := PendingRequests.enqueue s.pendingReleaseRequests s.nextId
      nextId := s.nextId + 1 },
    [Effect.send (Request.releaseMany objectGripActorNames)], Promise.pending s.nextId)

/-- The `why` sub-object of a paused response: its `type` string and, when
present, its `frameFinished` sub-object (identified with the grip carried in
its `return` field). -/
structure PausedWhy where
  type : String
  frameFinished : Option Nat
deriving DecidableEq

/-- An inbound message as inspected by `receiveResponse`: each recognized JS
field is an `Option` (`none` when the key is absent or falsy), and
`extraKeys` counts the remaining keys of the object (such as `from`), so
that `Object.keys(response).length` is recoverable. -/
structure Response where
  type : Option String
  why : Option PausedWhy
  sources : Option (List Nat)
  source : Option Nat
  frames : Option (List Nat)
  error : Option String
  extraKeys : Nat
deriving DecidableEq

/-- Counts `1` if the optional field is present, else `0`. -/
def optCount {α : Type} : Option α → Nat
  | none => 0
  | some _ => 1

/-- Computes `Object.keys(response).length`: the number of keys present on the
message object. -/
def Response.numKeys (r : Response) : Nat :=
  optCount r.type + optCount r.why + optCount r.sources + optCount r.source +
    optCount r.frames + optCount r.error + r.extraKeys

/-- Method `ThreadActorProxy.receiveResponse`: classify one inbound message by shape,
in the source's precedence order, and route it.  Returns `none` when the JS
code would throw a `TypeError` dereferencing a missing sub-object. -/
def receiveResponse (s : ThreadState) (r : Response) : Option (ThreadState × List Effect) :=
  if r.type = some "paused" then
    match r.why with
    | none => none
    | some why =>
      if why.type = "attached" then
        match s.pendingAttachRequest with
        | some h =>
          some ({ s with
              pendingAttachRequest := none
              interruptPromise := some Promise.resolved },
            [Effect.resolve h RVal.unit])
        | none => some (s, [Effect.warn "Received attached message without pending request"])
      else if why.type = "interrupted" then
        match s.pendingInterruptRequest with
        | some h =>
          some ({ s with pendingInterruptRequest := none }, [Effect.resolve h RVal.unit])
        | none =>
          some (s, [Effect.warn "Received interrupted message without pending request"])
      else if why.type = "resumeLimit" ∨ why.type = "breakpoint" ∨ why.type = "exception" then
        some ({ s with
            interruptPromise := some Promise.resolved
            resumePromise := none
            pendingInterruptRequest := none
            pendingResumeRequest := none },
          [Effect.emitPaused why.type])
      else if why.type = "clientEvaluated" then
        match why.frameFinished with
        | none => none
        | some g =>
          some ({ s with
              interruptPromise := some Promise.resolved
              resumePromise := none
              pendingEvaluateRequests :=
                (PendingRequests.resolveOne s.pendingEvaluateRequests (RVal.grip g)).1 },
            (PendingRequests.resolveOne s.pendingEvaluateRequests (RVal.grip g)).2)
      else
        some (s, [Effect.warn "Paused event with unhandled reason",
          Effect.emitPaused why.type])
  else if r.type = some "resumed" then
    match s.pendingResumeRequest with
    | some h => some ({ s with pendingResumeRequest := none }, [Effect.resolve h RVal.unit])
    | none => some (s, [Effect.warn "Received resumed reply without pending request"])
  else if r.type = some "detached" then
    match s.pendingDetachRequest with
    | some h =>
      some ({ s with
          pendingDetachRequest := none
          pendingStackFramesRequests :=
            (PendingRequests.rejectAll s.pendingStackFramesRequests "Detached").1
          pendingEvaluateRequests :=
            (PendingRequests.rejectAll s.pendingEvaluateRequests "Detached").1 },
        [Effect.resolve h RVal.unit]
          ++ (PendingRequests.rejectAll s.pendingStackFramesRequests "Detached").2
          ++ (PendingRequests.rejectAll s.pendingEvaluateRequests "Detached").2)
    | none =>
      some ({ s with
          pendingStackFramesRequests :=
            (PendingRequests.rejectAll s.pendingStackFramesRequests "Detached").1
          pendingEvaluateRequests :=
            (PendingRequests.rejectAll s.pendingEvaluateRequests "Detached").1 },
        [Effect.warn "Thread detached without a corresponding request"]
          ++ (PendingRequests.rejectAll s.pendingStackFramesRequests "Detached").2
          ++ (PendingRequests.rejectAll s.pendingEvaluateRequests "Detached").2)
  else
    match r.sources with
    | some srcs =>
      some ({ s with
          pendingSourcesRequests :=
            (PendingRequests.resolveOne s.pendingSourcesRequests (RVal.sources srcs)).1 },
        (PendingRequests.resolveOne s.pendingSourcesRequests (RVal.sources srcs)).2)
    | none =>
      if r.type = some "newSource" then
        match r.source with
        | none => none
        | some src =>
          some (s, [Effect.getOrCreateSourceActor src, Effect.emitNewSource src])
      else
        match r.frames with
        | some fs =>
          some ({ s with
              pendingStackFramesRequests :=
                (PendingRequests.resolveOne s.pendingStackFramesRequests (RVal.frames fs)).1 },
            (PendingRequests.resolveOne s.pendingStackFramesRequests (RVal.frames fs)).2)
        | none =>
          if r.type = some "exited" then
            some (s, [Effect.emitExited])
          else if r.error = some "wrongState" then
            some (s, [Effect.warn "Thread was in the wrong state for the last request",
              Effect.emitWrongState])
          else if r.numKeys = 1 then
            some ({ s with
                pendingReleaseRequests :=
                  (PendingRequests.resolveOne s.pendingReleaseRequests RVal.unit).1 },
              (PendingRequests.resolveOne s.pendingReleaseRequests RVal.unit).2)
          else if r.type = some "newGlobal" then
            some (s, [])
          else
            some (s, [Effect.warn "Unknown message from ThreadActor"])

/-- Builds a paused message with the given reason and no `frameFinished` payload;
`extraKeys = 1` accounts for the `from` key every real message carries. -/
def pausedMsg (reason : String) : Response :=
  { type := some "paused"
    why := some { type := reason, frameFinished := none }
    sources := none
    source := none
    frames := none
    error := none
    extraKeys := 1 }

/-- Builds a paused message with reason `clientEvaluated` carrying the grip `g` in
`why.frameFinished.return`. -/
def clientEvaluatedMsg (g : Nat) : Response :=
  { type := some "paused"
    why := some { type := "clientEvaluated", frameFinished := some g }
    sources := none
    source := none
    frames := none
    error := none
    extraKeys := 1 }

/-- Builds a `resumed` message. -/
def resumedMsg : Response :=
  { type := some "resumed"
    why := none
    sources := none
    source := none
    frames := none
    error := none
    extraKeys := 1 }

/-- Builds a `detached` message. -/
def detachedMsg : Response :=
  { type := some "detached"
    why := none
    sources := none
    source := none
    frames := none
    error := none
    extraKeys := 1 }

/-- Builds a reply carrying a `frames` payload. -/
def framesMsg (fs : List Nat) : Response :=
  { type := none
    why := none
    sources := none
    source := none
    frames := some fs
    error := none
    extraKeys := 1 }

/-- Per-character escaping as the spec words it: every backslash and every
double-quote character is escaped (preceded by a backslash); all other
characters are kept. -/
def escapeSpecChar (c : Char) : List Char :=
  if c = backslashChar then [backslashChar, backslashChar]
  else if c = quoteChar then [backslashChar, quoteChar]
  else [c]

/-- Spec-side description of the expression escaping in `evaluate`: one pass
of `escapeSpecChar` over the input, to be compared with the source's two
sequential global replaces (`escapedExpression`). -/
def escapeSpec (s : String) : String :=
  String.mk (s.data.map escapeSpecChar).flatten

/-- Issues `fetchStackFrames levels` a number of times in a row, returning
the final state together with the ids of the promises handed back to the
caller, in issuance order. -/
def issueStackFramesN (levels : Nat) : Nat → ThreadState → ThreadState × List Nat
  | 0, s => (s, [])
  | n + 1, s =>
    ((issueStackFramesN levels n (fetchStackFrames s levels).1).1,
      s.nextId :: (issueStackFramesN levels n (fetchStackFrames s levels).1).2)

/-- Delivers a list of `frames` replies to the dispatcher one after the
other, collecting all effects in order.  (The frames branch of
`receiveResponse` never throws, so the `none` case is unreachable.) -/
def deliverFramesAll : List (List Nat) → ThreadState → ThreadState × List Effect
  | [], s => (s, [])
  | v :: vs, s =>
    match receiveResponse s (framesMsg v) with
    | some r =>
      ((deliverFramesAll vs r.1).1, r.2 ++ (deliverFramesAll vs r.1).2)
    | none => (s, [])

/-- Composing the two global replaces of `evaluate` equals the single-pass
per-character escaping, at the level of character lists. -/
theorem replace_replace_list (l : List Char) :
    (l.foldr (fun ch acc => if ch = backslashChar then
        backslashChar :: backslashChar :: acc else ch :: acc) []).foldr
      (fun ch acc => if ch = quoteChar then
        backslashChar :: quoteChar :: acc else ch :: acc) []
      = (l.map escapeSpecChar).flatten := by
  have hbq : backslashChar ≠ quoteChar := by decide
  induction l with
  | nil => rfl
  | cons c t ih =>
    by_cases hb : c = backslashChar
    · subst hb
      simp [escapeSpecChar, hbq, ih]
    · by_cases hq : c = quoteChar
      · subst hq
        simp [escapeSpecChar, Ne.symm hbq, ih]
      · simp [escapeSpecChar, hb, hq, ih]

/-- The source's escaping (backslashes first, then double quotes) agrees
with the spec's single-pass description for every expression. -/
theorem escapedExpression_eq_escapeSpec (s : String) :
    escapedExpression s = escapeSpec s := by
  cases s with
  | mk l => exact congrArg String.mk (replace_replace_list l)

/-- Dispatching a `frames` reply when the stack-frames queue is non-empty
settles exactly the oldest queued handle with the payload. -/
theorem receiveResponse_framesMsg (s : ThreadState) (v : List Nat) (h : Nat) (t : List Nat)
    (hq : s.pendingStackFramesRequests = h :: t) :
    receiveResponse s (framesMsg v) =
      some ({ s with pendingStackFramesRequests := t }, [Effect.resolve h (RVal.frames v)]) := by
  simp [receiveResponse, framesMsg, PendingRequests.resolveOne, hq]

/-- Delivering as many `frames` replies as there are queued handles settles
them pairwise in order and pops exactly that prefix of the queue. -/
theorem deliverFramesAll_spec (vs : List (List Nat)) (hs rest : List Nat) (s : ThreadState)
    (hq : s.pendingStackFramesRequests = hs ++ rest) (hlen : vs.length = hs.length) :
    deliverFramesAll vs s =
      ({ s with pendingStackFramesRequests := rest },
        List.zipWith (fun h v => Effect.resolve h (RVal.frames v)) hs vs) := by
  induction vs generalizing hs s with
  | nil =>
    cases hs with
    | nil =>
      simp only [List.nil_append] at hq
      simp [deliverFramesAll, ← hq]
    | cons h t => simp at hlen
  | cons v vs ih =>
    cases hs with
    | nil => simp at hlen
    | cons h t =>
      have step := receiveResponse_framesMsg s v h (t ++ rest) (by rw [hq]; rfl)
      have ihx := ih t ({ s with pendingStackFramesRequests := t ++ rest }) rfl
        (by simpa using hlen)
      simp [deliverFramesAll, step, ihx]

/-- Issuing a batch of `fetchStackFrames` calls appends that many fresh
consecutive handle ids to the stack-frames queue and touches nothing else. -/
theorem issueStackFramesN_spec (levels : Nat) (n : Nat) (s : ThreadState) :
    issueStackFramesN levels n s =
      ({ s with
          pendingStackFramesRequests :=
            s.pendingStackFramesRequests ++ List.range' s.nextId n,
          nextId := s.nextId + n },
        List.range' s.nextId n) := by
  induction n generalizing s with
  | zero => simp [issueStackFramesN, List.range']
  | succ n ih =>
    simp [issueStackFramesN, fetchStackFrames, PendingRequests.enqueue, ih, List.range']
    omega

/-- C1: for a `paused` message, reason `attached` settles the pending attach
handle, seeds the interrupt slot as already satisfied and emits no paused
event; reasons `resumeLimit`, `breakpoint` and `exception` seed the
interrupt slot as satisfied, clear the resume slot and the pending
resume/interrupt handles without settling them, and emit exactly one
`paused` event carrying the reason. -/
theorem c1_paused_reason_routing (s : ThreadState) (r : Response) (w : PausedWhy)
    (hty : r.type = some "paused") (hwhy : r.why = some w) :
    (∀ h, w.type = "attached" → s.pendingAttachRequest = some h →
      receiveResponse s r =
        some ({ s with pendingAttachRequest := none,
                       interruptPromise := some Promise.resolved },
          [Effect.resolve h RVal.unit]))
    ∧ (w.type = "resumeLimit" ∨ w.type = "breakpoint" ∨ w.type = "exception" →
      receiveResponse s r =
        some ({ s with interruptPromise := some Promise.resolved,
                       resumePromise := none,
                       pendingInterruptRequest := none,
                       pendingResumeRequest := none },
          [Effect.emitPaused w.type])) := by
  constructor
  · intro h hattached hpend
    simp [receiveResponse, hty, hwhy, hattached, hpend]
  · intro hr
    rcases hr with hr | hr | hr <;> simp [receiveResponse, hty, hwhy, hr]

/-- Witness for C1: a paused/attached message at a state with a pending
attach handle settles that handle and emits nothing else. -/
theorem c1_paused_reason_routing_witness :
    (pausedMsg "attached").type = some "paused"
    ∧ (pausedMsg "attached").why = some { type := "attached", frameFinished := none }
    ∧ receiveResponse { initialState with pendingAttachRequest := some 0 } (pausedMsg "attached")
      = some ({ initialState with
                  pendingAttachRequest := none
                  interruptPromise := some Promise.resolved },
          [Effect.resolve 0 RVal.unit]) :=
  ⟨rfl, rfl,
    (c1_paused_reason_routing { initialState with pendingAttachRequest := some 0 }
      (pausedMsg "attached") { type := "attached", frameFinished := none } rfl rfl).1 0 rfl rfl⟩

/-- C2: issuing `fetchStackFrames` several times before any reply and then
delivering that many `frames` payloads settles the handles in issuance
order, the i-th payload settling the i-th handle; neither issuing nor
delivering touches the sources, evaluate or release queues. -/
theorem c2_stack_frames_fifo (s : ThreadState) (levels n : Nat) (vs : List (List Nat))
    (hq : s.pendingStackFramesRequests = []) (hlen : vs.length = n) :
    (deliverFramesAll vs (issueStackFramesN levels n s).1).2 =
      List.zipWith (fun h v => Effect.resolve h (RVal.frames v))
        (issueStackFramesN levels n s).2 vs
    ∧ (issueStackFramesN levels n s).2 = List.range' s.nextId n
    ∧ (issueStackFramesN levels n s).1.pendingSourcesRequests = s.pendingSourcesRequests
    ∧ (issueStackFramesN levels n s).1.pendingEvaluateRequests = s.pendingEvaluateRequests
    ∧ (issueStackFramesN levels n s).1.pendingReleaseRequests = s.pendingReleaseRequests
    ∧ (deliverFramesAll vs (issueStackFramesN levels n s).1).1.pendingSourcesRequests =
        s.pendingSourcesRequests
    ∧ (deliverFramesAll vs (issueStackFramesN levels n s).1).1.pendingEvaluateRequests =
        s.pendingEvaluateRequests
    ∧ (deliverFramesAll vs (issueStackFramesN levels n s).1).1.pendingReleaseRequests =
        s.pendingReleaseRequests := by
  have hiss := issueStackFramesN_spec levels n s
  have hdel := deliverFramesAll_spec vs (List.range' s.nextId n) []
    (issueStackFramesN levels n s).1
    (by rw [hiss]; simp [hq])
    (by rw [hlen, List.length_range'])
  rw [hiss] at hdel
  refine ⟨?_, ?_, ?_, ?_, ?_, ?_, ?_, ?_⟩ <;> simp [hiss, hdel]

/-- Witness for C2: three stack-frame requests from the fresh state, then
three frame payloads, settle the three handles pairwise in order. -/
theorem c2_stack_frames_fifo_witness :
    initialState.pendingStackFramesRequests = []
    ∧ ([[10], [20], [30]] : List (List Nat)).length = 3
    ∧ (deliverFramesAll [[10], [20], [30]] (issueStackFramesN 5 3 initialState).1).2 =
        List.zipWith (fun h v => Effect.resolve h (RVal.frames v))
          (issueStackFramesN 5 3 initialState).2 [[10], [20], [30]] :=
  ⟨rfl, rfl, (c2_stack_frames_fifo initialState 5 3 [[10], [20], [30]] rfl rfl).1⟩

/-- C3: a successful attach (issuing `attach` then receiving the
paused/attached reply) leaves the cached detach result cleared and the
interrupt slot pre-seeded as satisfied, so a subsequent `detach` creates a
fresh handle and sends a wire request while a subsequent `interrupt`
returns the already-settled result without sending anything or changing
state. -/
theorem c3_attach_success_seeding (s : ThreadState) (ha : s.attachPromise = none) :
    receiveResponse (attach s).1 (pausedMsg "attached") =
      some ({ s with
                attachPromise := some (Promise.pending s.nextId)
                pendingAttachRequest := none
                interruptPromise := some Promise.resolved
                detachPromise := none
                nextId := s.nextId + 1 },
        [Effect.resolve s.nextId RVal.unit])
    ∧ (∀ s2 effs, receiveResponse (attach s).1 (pausedMsg "attached") = some (s2, effs) →
        (detach s2).2.1 = [Effect.send Request.detach]
        ∧ (detach s2).1.pendingDetachRequest = some s2.nextId
        ∧ interrupt s2 = (s2, [], Promise.resolved)) := by
  constructor
  · simp [attach, ha, receiveResponse, pausedMsg]
  · intro s2 effs h2
    simp [attach, ha, receiveResponse, pausedMsg] at h2
    obtain ⟨h2s, h2e⟩ := h2
    subst h2s
    refine ⟨?_, ?_, ?_⟩ <;> simp [detach, interrupt]

/-- Witness for C3: attach from the fresh state, deliver paused/attached,
then interrupt returns the settled result without any effect. -/
theorem c3_attach_success_seeding_witness :
    initialState.attachPromise = none
    ∧ receiveResponse (attach initialState).1 (pausedMsg "attached") =
      some ({ initialState with
                attachPromise := some (Promise.pending 0)
                pendingAttachRequest := none
                interruptPromise := some Promise.resolved
                detachPromise := none
                nextId := 1 },
        [Effect.resolve 0 RVal.unit])
    ∧ interrupt { initialState with
                    attachPromise := some (Promise.pending 0)
                    pendingAttachRequest := none
                    interruptPromise := some Promise.resolved
                    detachPromise := none
                    nextId := 1 } =
      ({ initialState with
           attachPromise := some (Promise.pending 0)
           pendingAttachRequest := none
           interruptPromise := some Promise.resolved
           detachPromise := none
           nextId := 1 }, [], Promise.resolved) :=
  ⟨rfl, (c3_attach_success_seeding initialState rfl).1,
    ((c3_attach_success_seeding initialState rfl).2 _ _ rfl).2.2⟩

/-- C4: whenever `resume` actually issues (no cached resume result), it
clears any cached interrupt result -- whatever that slot held -- so a
following `interrupt` creates a fresh handle (a new pending promise) and
sends a new `interrupt` wire request instead of returning a cached result;
and symmetrically, whenever `interrupt` actually issues, it clears any
cached resume result, so a following `resume` creates a fresh handle and
sends a new `resume` wire request. -/
theorem c4_mutual_invalidation (s : ThreadState) (eb : ExceptionBreakpoints)
    (rl : Option String) :
    (s.resumePromise = none →
      (resume s eb rl).1.interruptPromise = none
      ∧ (interrupt (resume s eb rl).1).2.1 = [Effect.send Request.interrupt]
      ∧ (interrupt (resume s eb rl).1).1.pendingInterruptRequest =
          some (resume s eb rl).1.nextId
      ∧ (interrupt (resume s eb rl).1).2.2 =
          Promise.pending (resume s eb rl).1.nextId)
    ∧ (s.interruptPromise = none →
      (interrupt s).1.resumePromise = none
      ∧ (resume (interrupt s).1 eb rl).2.1 =
          [Effect.send (Request.resume rl (exceptionFlags eb).1 (exceptionFlags eb).2)]
      ∧ (resume (interrupt s).1 eb rl).1.pendingResumeRequest =
          some (interrupt s).1.nextId
      ∧ (resume (interrupt s).1 eb rl).2.2 =
          Promise.pending (interrupt s).1.nextId) := by
  constructor
  · intro hr
    refine ⟨?_, ?_, ?_, ?_⟩ <;> simp [resume, interrupt, hr]
  · intro hi
    refine ⟨?_, ?_, ?_, ?_⟩ <;> simp [resume, interrupt, hi]

/-- Witness for C4: both directions exercised from states that hold a
cached (already-settled) result in the slot being invalidated -- an
interrupt result cached before `resume`, and a resume result cached before
`interrupt`. -/
theorem c4_mutual_invalidation_witness :
    ({ initialState with
         interruptPromise := some Promise.resolved } : ThreadState).resumePromise = none
    ∧ ((resume { initialState with interruptPromise := some Promise.resolved }
          ExceptionBreakpoints.All none).1.interruptPromise = none
      ∧ (interrupt (resume { initialState with interruptPromise := some Promise.resolved }
          ExceptionBreakpoints.All none).1).2.1 = [Effect.send Request.interrupt]
      ∧ (interrupt (resume { initialState with interruptPromise := some Promise.resolved }
          ExceptionBreakpoints.All none).1).1.pendingInterruptRequest =
          some (resume { initialState with interruptPromise := some Promise.resolved }
            ExceptionBreakpoints.All none).1.nextId
      ∧ (interrupt (resume { initialState with interruptPromise := some Promise.resolved }
          ExceptionBreakpoints.All none).1).2.2 =
          Promise.pending (resume { initialState with interruptPromise := some Promise.resolved }
            ExceptionBreakpoints.All none).1.nextId)
    ∧ ({ initialState with
         resumePromise := some Promise.resolved } : ThreadState).interruptPromise = none
    ∧ ((interrupt { initialState with
          resumePromise := some Promise.resolved }).1.resumePromise = none
      ∧ (resume (interrupt { initialState with
          resumePromise := some Promise.resolved }).1 ExceptionBreakpoints.All none).2.1 =
          [Effect.send (Request.resume none (some true) none)]
      ∧ (resume (interrupt { initialState with
          resumePromise := some Promise.resolved }).1 ExceptionBreakpoints.All none).1.pendingResumeRequest =
          some (interrupt { initialState with resumePromise := some Promise.resolved }).1.nextId
      ∧ (resume (interrupt { initialState with
          resumePromise := some Promise.resolved }).1 ExceptionBreakpoints.All none).2.2 =
          Promise.pending (interrupt { initialState with
            resumePromise := some Promise.resolved }).1.nextId) :=
  ⟨rfl,
    (c4_mutual_invalidation { initialState with interruptPromise := some Promise.resolved }
      ExceptionBreakpoints.All none).1 rfl,
    rfl,
    (c4_mutual_invalidation { initialState with resumePromise := some Promise.resolved }
      ExceptionBreakpoints.All none).2 rfl⟩

/-- C5: a `detached` message settles the pending detach handle when one is
pending (otherwise only warns), rejects every queued stack-frames and
evaluate handle with reason `Detached` and empties those two queues, while
the sources and release queues are left untouched. -/
theorem c5_detached_flush (s : ThreadState) (r : Response)
    (hty : r.type = some "detached") :
    receiveResponse s r =
      some ({ s with
                pendingDetachRequest := none
                pendingStackFramesRequests := []
                pendingEvaluateRequests := [] },
        (match s.pendingDetachRequest with
          | some h => [Effect.resolve h RVal.unit]
          | none => [Effect.warn "Thread detached without a corresponding request"])
        ++ s.pendingStackFramesRequests.map (fun h => Effect.reject h "Detached")
        ++ s.pendingEvaluateRequests.map (fun h => Effect.reject h "Detached")) := by
  cases hd : s.pendingDetachRequest <;>
    simp [receiveResponse, hty, hd, PendingRequests.rejectAll]

/-- Witness for C5: detach reply at a state with one pending detach handle,
two queued stack-frames handles, one evaluate handle, and a sources and a
release handle that survive. -/
theorem c5_detached_flush_witness :
    detachedMsg.type = some "detached"
    ∧ receiveResponse { initialState with
                          pendingDetachRequest := some 0
                          pendingSourcesRequests := [4]
                          pendingStackFramesRequests := [1, 2]
                          pendingEvaluateRequests := [3]
                          pendingReleaseRequests := [5] } detachedMsg =
      some ({ initialState with
                pendingDetachRequest := none
                pendingSourcesRequests := [4]
                pendingStackFramesRequests := []
                pendingEvaluateRequests := []
                pendingReleaseRequests := [5] },
        [Effect.resolve 0 RVal.unit, Effect.reject 1 "Detached", Effect.reject 2 "Detached",
          Effect.reject 3 "Detached"]) :=
  ⟨rfl, c5_detached_flush { initialState with
                              pendingDetachRequest := some 0
                              pendingSourcesRequests := [4]
                              pendingStackFramesRequests := [1, 2]
                              pendingEvaluateRequests := [3]
                              pendingReleaseRequests := [5] } detachedMsg rfl⟩

/-- C6: a second `attach` without an intervening `detach` leaves the state
unchanged, returns the same promise as the first call, and produces only a
diagnostic warning (in particular no wire message). -/
theorem c6_attach_idempotent (s : ThreadState) (ha : s.attachPromise = none) :
    (attach (attach s).1).1 = (attach s).1
    ∧ (attach (attach s).1).2.2 = (attach s).2.2
    ∧ (attach (attach s).1).2.1 =
        [Effect.warn "Attaching this thread has already been requested!"] := by
  refine ⟨?_, ?_, ?_⟩ <;> simp [attach, ha]

/-- Witness for C6 at the fresh state. -/
theorem c6_attach_idempotent_witness :
    initialState.attachPromise = none
    ∧ ((attach (attach initialState).1).1 = (attach initialState).1
      ∧ (attach (attach initialState).1).2.2 = (attach initialState).2.2
      ∧ (attach (attach initialState).1).2.1 =
          [Effect.warn "Attaching this thread has already been requested!"]) :=
  ⟨rfl, c6_attach_idempotent initialState rfl⟩

/-- C7: for every expression, `evaluate` sends exactly one `clientEvaluate`
message whose expression field is the input with every backslash and every
double quote escaped (single-pass spec description), wrapped in the remote
try/catch template that stringifies a thrown error as name, colon, message;
and when the remote evaluation comes back as a paused/clientEvaluated
message, the handle is settled successfully (resolved, not rejected) with
the returned value. -/
theorem c7_evaluate_escaping (s : ThreadState) (expr frameId : String) (g : Nat)
    (hq : s.pendingEvaluateRequests = []) :
    (evaluate s expr frameId).2.1 =
      [Effect.send (Request.clientEvaluate
        (tryExprOpen ++ escapeSpec expr ++ tryExprClose) frameId)]
    ∧ receiveResponse (evaluate s expr frameId).1 (clientEvaluatedMsg g) =
      some ({ (evaluate s expr frameId).1 with
                interruptPromise := some Promise.resolved
                resumePromise := none
                pendingEvaluateRequests := [] },
        [Effect.resolve s.nextId (RVal.grip g)]) := by
  constructor
  · simp [evaluate, escapedExpression_eq_escapeSpec]
  · simp [evaluate, receiveResponse, clientEvaluatedMsg, PendingRequests.enqueue,
      PendingRequests.resolveOne, hq]

/-- Witness for C7: evaluating an expression containing a double quote from
the fresh state, then delivering the clientEvaluated reply. -/
theorem c7_evaluate_escaping_witness :
    initialState.pendingEvaluateRequests = []
    ∧ ((evaluate initialState
          ("say " ++ String.mk [quoteChar] ++ "hi" ++ String.mk [quoteChar]) "frame1").2.1 =
        [Effect.send (Request.clientEvaluate
          (tryExprOpen
            ++ escapeSpec ("say " ++ String.mk [quoteChar] ++ "hi" ++ String.mk [quoteChar])
            ++ tryExprClose) "frame1")]
      ∧ receiveResponse (evaluate initialState
            ("say " ++ String.mk [quoteChar] ++ "hi" ++ String.mk [quoteChar]) "frame1").1
          (clientEvaluatedMsg 42) =
        some ({ (evaluate initialState
                  ("say " ++ String.mk [quoteChar] ++ "hi" ++ String.mk [quoteChar])
                  "frame1").1 with
                  interruptPromise := some Promise.resolved
                  resumePromise := none
                  pendingEvaluateRequests := [] },
          [Effect.resolve 0 (RVal.grip 42)])) :=
  ⟨rfl, c7_evaluate_escaping initialState
    ("say " ++ String.mk [quoteChar] ++ "hi" ++ String.mk [quoteChar]) "frame1" 42 rfl⟩

/-- C8: the resume operation maps the exception-breakpoint policy to the two
wire flags as `All` to pause-on-exceptions true and ignore-caught unset,
`Uncaught` to both true, `None` to neither, and an absent step kind yields
no resume-limit descriptor in the outbound message. -/
theorem c8_resume_exception_mapping (s : ThreadState) (hr : s.resumePromise = none) :
    (resume s ExceptionBreakpoints.All none).2.1 =
      [Effect.send (Request.resume none (some true) none)]
    ∧ (resume s ExceptionBreakpoints.Uncaught none).2.1 =
      [Effect.send (Request.resume none (some true) (some true))]
    ∧ (resume s ExceptionBreakpoints.None none).2.1 =
      [Effect.send (Request.resume none none none)]
    ∧ (∀ eb rlt, (resume s eb (some rlt)).2.1 =
      [Effect.send (Request.resume (some rlt) (exceptionFlags eb).1 (exceptionFlags eb).2)]) := by
  refine ⟨?_, ?_, ?_, ?_⟩ <;> simp [resume, hr, exceptionFlags]

/-- Witness for C8 at the fresh state. -/
theorem c8_resume_exception_mapping_witness :
    initialState.resumePromise = none
    ∧ ((resume initialState ExceptionBreakpoints.All none).2.1 =
        [Effect.send (Request.resume none (some true) none)]
      ∧ (resume initialState ExceptionBreakpoints.Uncaught none).2.1 =
        [Effect.send (Request.resume none (some true) (some true))]
      ∧ (resume initialState ExceptionBreakpoints.None none).2.1 =
        [Effect.send (Request.resume none none none)]
      ∧ (∀ eb rlt, (resume initialState eb (some rlt)).2.1 =
        [Effect.send (Request.resume (some rlt) (exceptionFlags eb).1 (exceptionFlags eb).2)])) :=
  ⟨rfl, c8_resume_exception_mapping initialState rfl⟩

/-- C9: an inbound message matching none of the recognized shapes is handled
without throwing and leaves the state (every lifecycle slot and every
pending queue) unchanged; when its type is `newGlobal` it is ignored
silently, otherwise only an unrecognized-message warning is produced. -/
theorem c9_unrecognized_message_safe (s : ThreadState) (r : Response)
    (h1 : r.type ≠ some "paused") (h2 : r.type ≠ some "resumed")
    (h3 : r.type ≠ some "detached") (h4 : r.sources = none)
    (h5 : r.type ≠ some "newSource") (h6 : r.frames = none)
    (h7 : r.type ≠ some "exited") (h8 : r.error ≠ some "wrongState")
    (h9 : r.numKeys ≠ 1) :
    receiveResponse s r =
      some (s, if r.type = some "newGlobal" then []
        else [Effect.warn "Unknown message from ThreadActor"]) := by
  by_cases hng : r.type = some "newGlobal" <;>
    simp [receiveResponse, h1, h2, h3, h4, h5, h6, h7, h8, h9, hng]

/-- Witness for C9: a two-key `newGlobal` message is silently ignored and
the state is returned unchanged. -/
theorem c9_unrecognized_message_safe_witness :
    receiveResponse initialState
      { type := some "newGlobal", why := none, sources := none, source := none,
        frames := none, error := none, extraKeys := 1 } =
      some (initialState,
        if ({ type := some "newGlobal", why := none, sources := none, source := none,
              frames := none, error := none, extraKeys := 1 } : Response).type =
            some "newGlobal"
        then [] else [Effect.warn "Unknown message from ThreadActor"]) :=
  c9_unrecognized_message_safe initialState
    { type := some "newGlobal", why := none, sources := none, source := none,
      frames := none, error := none, extraKeys := 1 }
    (by decide) (by decide) (by decide) rfl (by decide) rfl (by decide) (by decide) (by decide)

/-- C10: a paused/clientEvaluated message clears the cached resume promise
but leaves the pending resume request handle in place, so a `resumed`
message arriving afterwards settles that handle instead of warning; by
contrast a paused/breakpoint message clears the pending resume handle. -/
theorem c10_client_evaluated_resume_handle (s : ThreadState) (g hres : Nat)
    (hr : s.pendingResumeRequest = some hres) :
    receiveResponse s (clientEvaluatedMsg g) =
      some ({ s with
                interruptPromise := some Promise.resolved
                resumePromise := none
                pendingEvaluateRequests :=
                  (PendingRequests.resolveOne s.pendingEvaluateRequests (RVal.grip g)).1 },
        (PendingRequests.resolveOne s.pendingEvaluateRequests (RVal.grip g)).2)
    ∧ receiveResponse
        { s with
            interruptPromise := some Promise.resolved
            resumePromise := none
            pendingEvaluateRequests :=
              (PendingRequests.resolveOne s.pendingEvaluateRequests (RVal.grip g)).1 }
        resumedMsg =
      some ({ s with
                interruptPromise := some Promise.resolved
                resumePromise := none
                pendingEvaluateRequests :=
                  (PendingRequests.resolveOne s.pendingEvaluateRequests (RVal.grip g)).1
                pendingResumeRequest := none },
        [Effect.resolve hres RVal.unit])
    ∧ (∀ s2 effs, receiveResponse s (pausedMsg "breakpoint") = some (s2, effs) →
        s2.pendingResumeRequest = none) := by
  refine ⟨?_, ?_, ?_⟩
  · simp [receiveResponse, clientEvaluatedMsg]
  · simp [receiveResponse, resumedMsg, hr]
  · intro s2 effs h2
    simp [receiveResponse, pausedMsg] at h2
    obtain ⟨h2s, _⟩ := h2
    subst h2s
    rfl

/-- Witness for C10: a resume handle issued before the evaluation survives
the clientEvaluated message and is settled by the following resumed
message. -/
theorem c10_client_evaluated_resume_handle_witness :
    ({ initialState with
         pendingResumeRequest := some 7
         pendingEvaluateRequests := [3] } : ThreadState).pendingResumeRequest = some 7
    ∧ receiveResponse { initialState with
                          pendingResumeRequest := some 7
                          pendingEvaluateRequests := [3] } (clientEvaluatedMsg 9) =
      some ({ initialState with
                pendingResumeRequest := some 7
                pendingEvaluateRequests := []
                interruptPromise := some Promise.resolved },
        [Effect.resolve 3 (RVal.grip 9)])
    ∧ receiveResponse { initialState with
                          pendingResumeRequest := some 7
                          pendingEvaluateRequests := []
                          interruptPromise := some Promise.resolved } resumedMsg =
      some ({ initialState with
                pendingResumeRequest := none
                pendingEvaluateRequests := []
                interruptPromise := some Promise.resolved },
        [Effect.resolve 7 RVal.unit]) :=
  ⟨rfl,
    (c10_client_evaluated_resume_handle { initialState with
        pendingResumeRequest := some 7
        pendingEvaluateRequests := [3] } 9 7 rfl).1,
    (c10_client_evaluated_resume_handle { initialState with
        pendingResumeRequest := some 7
        pendingEvaluateRequests := [3] } 9 7 rfl).2.1⟩

end ThreadActor
